import Mathlib

/-
Verification of the crop-analysis pipeline in src/app.py against its
natural-language specification.

The embedding models the image-processing part of the `/predict` endpoint:
  - `is_plant_image` (src/app.py lines 59-83): counts pixels whose green
    channel strictly exceeds both red and blue, computes the percentage of
    such pixels, and accepts the image when that percentage is > 15.
    Any exception raised inside the function is caught and turned into
    `False` (lines 81-83).
  - `predict` (src/app.py lines 824-885): opens the image (an exception
    there is caught at lines 883-885 and surfaced as a processing error),
    runs the plant gate (a failed gate is reported as a plant-image error,
    lines 830-831), and otherwise returns a mock classification: a
    uniformly random element of the fixed five-entry `prediction_types`
    list together with `round(random.uniform(0.75, 0.98), 2)` as the
    confidence (lines 841-862).  The randomness is modelled explicitly:
    the outcome of `random.choice` is an index `r : Fin 5` and the outcome
    of `random.uniform(0.75, 0.98)` is a rational `u`.
  - the database-save block (lines 864-880) catches any save error and
    returns the already-computed result regardless.

Machine arithmetic: the Python code computes the green percentage with
float division; the embedding uses exact rationals.  Python evaluates
`0/0` on the numpy scalar to nan and `nan > 15` to False, so a zero-size
image fails the gate; the rational model gives `0/0 = 0` and `0 > 15`
false, the same boolean outcome on that path.
-/

set_option maxRecDepth 8000

namespace Crop

/-- One decoded RGB pixel, channels in the conceptual 0-255 range. -/
structure Pixel where
  r : Nat
  g : Nat
  b : Nat
deriving DecidableEq, Repr

/-- The object produced by a successful `Image.open`: either the pixel data
loads and flattens to a list of RGB triples, or decoding fails lazily
inside `is_plant_image` (modelled by `loadFail`); that failure is what the
`except` block at src/app.py lines 81-83 catches. -/
inductive PILImage where
  | loadFail
  | rgb (pixels : List Pixel)
deriving DecidableEq

/-- The outcome of `Image.open` in `predict` (src/app.py line 827): either
it raises (caught at lines 883-885) or it yields an image object. -/
inductive OpenResult where
  | openFail (msg : String)
  | img (i : PILImage)

/-- Pixels counted by `is_plant_image`: green channel strictly greater
than both red and blue (src/app.py line 74). -/
def greenCount (ps : List Pixel) : Nat :=
  ps.countP (fun p => decide (p.r < p.g ∧ p.b < p.g))

/-- The green percentage computed at src/app.py line 76:
`(green_pixels / total_pixels) * 100`, as an exact rational. -/
def green_percentage (ps : List Pixel) : Rat :=
  ((greenCount ps : Rat) / (ps.length : Rat)) * 100

/-- `is_plant_image` from src/app.py lines 59-83: accepts when the green
percentage is strictly greater than 15; any internal exception is caught
and the function returns False. -/
def is_plant_image : PILImage → Bool
  | .loadFail => false
  | .rgb ps => decide ((15 : Rat) < green_percentage ps)

/-- One entry of the mock prediction list: a disease name and its
treatment text (src/app.py lines 841-847). -/
structure Profile where
  name : String
  treatment : String
deriving DecidableEq, Repr

/-- The fixed five-entry `prediction_types` list from src/app.py
lines 841-847, names and treatment texts verbatim. -/
def prediction_types : List Profile :=
  [⟨"Healthy", "Continue current care routine. Monitor for any changes. Apply fertilizer as scheduled. Maintain proper watering schedule."⟩,
   ⟨"Early Blight", "Apply copper-based fungicide. Remove affected leaves. Improve air circulation. Avoid overhead watering."⟩,
   ⟨"Late Blight", "Apply metalaxyl-based fungicide. Remove and destroy infected plants. Ensure proper drainage. Rotate crops annually."⟩,
   ⟨"Powdery Mildew", "Apply sulfur-based fungicide. Increase air circulation. Reduce humidity if possible. Remove affected parts."⟩,
   ⟨"Leaf Spot", "Apply chlorothalonil fungicide. Remove affected leaves. Avoid overhead watering. Ensure proper spacing between plants."⟩]

/-- The outcome of `random.choice(prediction_types)` (src/app.py line 850)
for a drawn index `r`. -/
def randomChoice (r : Fin 5) : Profile :=
  prediction_types.get ⟨r.val, r.isLt⟩

/-- Python `round` to the nearest integer with ties going to the even
integer, on an exact rational. -/
def roundHalfEven (q : Rat) : Int :=
  if q - (⌊q⌋ : Rat) < 1/2 then ⌊q⌋
  else if (1 : Rat)/2 < q - (⌊q⌋ : Rat) then ⌊q⌋ + 1
  else if ⌊q⌋ % 2 = 0 then ⌊q⌋ else ⌊q⌋ + 1

/-- Python `round(x, 2)` (src/app.py line 851) on an exact rational. -/
def pyRound2 (q : Rat) : Rat :=
  ((roundHalfEven (q * 100) : Int) : Rat) / 100

/-- The classification triple returned by `predict` (src/app.py
lines 853-862); the `image_info` block only echoes request metadata
(filename, dimensions, format) and carries no pixel-derived data, so it
is not modelled. -/
structure Result where
  prediction : String
  confidence : Rat
  treatment : String
deriving DecidableEq, Repr

/-- The two error responses of the image-processing part of `predict`:
the plant-image rejection (HTTP 400, src/app.py line 831) and the
processing error (HTTP 500, lines 883-885). -/
inductive PredictError where
  | notPlant
  | processing (msg : String)
deriving DecidableEq

/-- The image-processing core of `predict` (src/app.py lines 824-862):
a failed `Image.open` surfaces as a processing error; a failed plant gate
surfaces as the plant-image rejection; otherwise the mock classification
is returned for the drawn index `r` and uniform draw `u`. -/
def predict (o : OpenResult) (r : Fin 5) (u : Rat) : Except PredictError Result :=
  match o with
  | .openFail msg => .error (.processing msg)
  | .img i =>
    if is_plant_image i then
      .ok ⟨(randomChoice r).name, pyRound2 u, (randomChoice r).treatment⟩
    else
      .error .notPlant

/-- `predict` including the database-save block (src/app.py lines
864-880): the save may fail with any error, the exception is caught and
the already-computed result is returned regardless. -/
def predictWithDb (o : OpenResult) (r : Fin 5) (u : Rat)
    (save : Result → Except String Unit) : Except PredictError Result :=
  match predict o r u with
  | .error e => .error e
  | .ok res =>
    match save res with
    | .ok _ => .ok res
    | .error _ => .ok res

/-- Projection: the disease name of a successful response. -/
def resultName : Except PredictError Result → Option String
  | .ok res => some res.prediction
  | .error _ => none

/-- Projection: the confidence of a successful response. -/
def resultConf : Except PredictError Result → Option Rat
  | .ok res => some res.confidence
  | .error _ => none

/-- Projection: the treatment text of a successful response. -/
def resultTreat : Except PredictError Result → Option String
  | .ok res => some res.treatment
  | .error _ => none

/-- The five symptom names of the specification (section 4.1). -/
inductive Symptom where
  | green
  | brown_spots
  | yellowing
  | white_dust
  | rusty_spots
deriving DecidableEq, Repr

/-- Modelled from the spec: the per-pixel color predicates of the Symptom
Extractor (spec section 4.1); no such predicates exist in src/app.py.
`G > R * 1.1` is written as `11 * R < 10 * G` over naturals. -/
def specPredicate : Symptom → Pixel → Bool
  | .green, p => decide (11 * p.r < 10 * p.g ∧ 11 * p.b < 10 * p.g)
  | .brown_spots, p => decide (90 < p.r ∧ 60 < p.g ∧ p.b < 90)
  | .yellowing, p => decide (150 < p.r ∧ 150 < p.g ∧ p.b < 100)
  | .white_dust, p => decide (200 < p.r ∧ 200 < p.g ∧ 200 < p.b)
  | .rusty_spots, p => decide (150 < p.r ∧ 80 < p.g ∧ p.b < 80)

/-- Modelled from the spec: a symptom ratio, the fraction of pixels
matching the symptom predicate (spec section 4.1); no such computation
exists in src/app.py. -/
def specFrac (s : Symptom) (ps : List Pixel) : Rat :=
  ((ps.countP (specPredicate s) : Rat)) / (ps.length : Rat)

/-- Modelled from the spec: the leaf-gate quantity `green_ratio`, the
fraction of pixels with `G > R * 1.1 AND G > B * 1.1` (spec section 4.1);
the code gate at src/app.py line 74 uses plain strict comparison instead. -/
def specGreenFrac (ps : List Pixel) : Rat :=
  specFrac .green ps

/-- Modelled from the spec: the asymmetric L1 error of a symptom vector
against one profile, summed only over the keys that the profile itself
lists (spec section 4.2); no such computation exists in src/app.py. -/
def profileError (sym : Symptom → Rat) (prof : List (Symptom × Rat)) : Rat :=
  (prof.map (fun sw => |sym sw.1 - sw.2|)).sum

/-- Modelled from the spec: one step of the Disease Matcher fold, keeping
the current best profile and replacing it only on strictly smaller error,
so the first library entry in enumeration order wins ties. -/
def specStep (sym : Symptom → Rat)
    (best : Option (String × List (Symptom × Rat)))
    (e : String × List (Symptom × Rat)) : Option (String × List (Symptom × Rat)) :=
  match best with
  | none => some e
  | some b => if profileError sym e.2 < profileError sym b.2 then some e else some b

/-- Modelled from the spec: the Disease Matcher selection (spec section
4.2), smallest error wins and the first library entry in enumeration
order wins ties; no such matcher exists in src/app.py. -/
def specMatch (lib : List (String × List (Symptom × Rat)))
    (sym : Symptom → Rat) : Option String :=
  (lib.foldl (specStep sym) none).map Prod.fst

/-- Modelled from the spec: the two disease profiles the spec states
explicitly (sections 8 and 4.2): Healthy with green 0.9 and Powdery
Mildew with white_dust 0.6 and green 0.4. -/
def specLibrary : List (String × List (Symptom × Rat)) :=
  [("Healthy", [(.green, 9/10)]),
   ("Powdery Mildew", [(.white_dust, 3/5), (.green, 2/5)])]

/-- A pure green pixel: green under both the code gate and the spec gate. -/
def greenPix : Pixel := ⟨0, 255, 0⟩

/-- A pure red pixel: green under neither gate and under no spec predicate. -/
def redPix : Pixel := ⟨255, 0, 0⟩

/-- A pure white pixel: satisfies only the spec white_dust predicate. -/
def whitePix : Pixel := ⟨255, 255, 255⟩

/-- A pure black pixel: satisfies no predicate. -/
def blackPix : Pixel := ⟨0, 0, 0⟩

/-- A 100-pixel buffer that is entirely green. -/
def allGreenBuf : List Pixel := List.replicate 100 greenPix

/-- A 100-pixel buffer that is entirely red: fails the code gate. -/
def allRedBuf : List Pixel := List.replicate 100 redPix

/-- A 100-pixel buffer with 18 green pixels: spec green_ratio 0.18 is
below the spec threshold 0.20, but the code gate passes since 18 > 15. -/
def buf18 : List Pixel := List.replicate 18 greenPix ++ List.replicate 82 redPix

/-- A 100-pixel buffer with 16 green pixels: spec green_ratio 0.16 is
below the spec threshold 0.20, but the code gate passes since 16 > 15. -/
def buf16 : List Pixel := List.replicate 16 greenPix ++ List.replicate 84 redPix

/-- The end-to-end scenario buffer of spec section 8: 40 green pixels,
25 white_dust pixels, 35 pixels matching nothing, out of 100. -/
def mixedBuf : List Pixel :=
  List.replicate 40 greenPix ++ List.replicate 25 whitePix ++ List.replicate 35 blackPix

/-- The green percentage exceeds 15 exactly when the integer
cross-multiplied comparison holds; this moves gate checks from rational
to natural arithmetic. -/
theorem green_percentage_gt_iff (ps : List Pixel) :
    (15 : Rat) < green_percentage ps ↔ 15 * ps.length < greenCount ps * 100 := by
  unfold green_percentage
  rcases Nat.eq_zero_or_pos ps.length with h0 | hpos
  · have hle : greenCount ps ≤ ps.length := List.countP_le_length _
    have hc : greenCount ps = 0 := by omega
    rw [hc, h0]
    norm_num
  · have hq : (0 : Rat) < (ps.length : Rat) := by exact_mod_cast hpos
    rw [div_mul_eq_mul_div, lt_div_iff₀ hq]
    exact_mod_cast Iff.rfl

/-- The code gate accepts exactly when strictly more than 15 percent of
the pixels are green in the sense of src/app.py line 74. -/
theorem is_plant_iff (ps : List Pixel) :
    is_plant_image (.rgb ps) = true ↔ 15 * ps.length < greenCount ps * 100 := by
  simp only [is_plant_image, decide_eq_true_eq]
  exact green_percentage_gt_iff ps

/-- Gate failure from the integer comparison. -/
theorem gate_false_of (ps : List Pixel)
    (h : ¬ 15 * ps.length < greenCount ps * 100) :
    is_plant_image (.rgb ps) = false := by
  cases hx : is_plant_image (.rgb ps)
  · rfl
  · exact absurd ((is_plant_iff ps).mp hx) h

/-- The all-green buffer passes the code gate. -/
theorem gate_allGreen : is_plant_image (.rgb allGreenBuf) = true :=
  (is_plant_iff allGreenBuf).mpr (by decide)

/-- The scenario buffer passes the code gate. -/
theorem gate_mixed : is_plant_image (.rgb mixedBuf) = true :=
  (is_plant_iff mixedBuf).mpr (by decide)

/-- The 18-percent-green buffer passes the code gate. -/
theorem gate_buf18 : is_plant_image (.rgb buf18) = true :=
  (is_plant_iff buf18).mpr (by decide)

/-- The 16-percent-green buffer passes the code gate. -/
theorem gate_buf16 : is_plant_image (.rgb buf16) = true :=
  (is_plant_iff buf16).mpr (by decide)

/-- The empty buffer fails the code gate. -/
theorem gate_nil : is_plant_image (.rgb ([] : List Pixel)) = false :=
  gate_false_of [] (by decide)

/-- The all-red buffer fails the code gate. -/
theorem gate_allRed : is_plant_image (.rgb allRedBuf) = false :=
  gate_false_of allRedBuf (by decide)

/-- The green percentage of the all-red buffer is zero. -/
theorem gp_allRed : green_percentage allRedBuf = 0 := by
  have hc : greenCount allRedBuf = 0 := rfl
  have hl : allRedBuf.length = 100 := rfl
  simp only [green_percentage, hc, hl]
  norm_num

/-- When the gate passes, predict returns the mock profile selected by
the drawn index, with the rounded uniform draw as confidence. -/
theorem predict_ok_of_gate (i : PILImage) (hg : is_plant_image i = true)
    (r : Fin 5) (u : Rat) :
    predict (.img i) r u =
      .ok ⟨(randomChoice r).name, pyRound2 u, (randomChoice r).treatment⟩ := by
  simp [predict, hg]

/-- When the gate fails, predict returns the plant-image rejection. -/
theorem predict_err_of_gate (i : PILImage) (hg : is_plant_image i = false)
    (r : Fin 5) (u : Rat) :
    predict (.img i) r u = .error .notPlant := by
  simp [predict, hg]

/-- On a decoded buffer, predict returns the plant-image rejection
exactly when the green percentage is at most 15. -/
theorem predict_notPlant_iff (ps : List Pixel) (r : Fin 5) (u : Rat) :
    predict (.img (.rgb ps)) r u = .error .notPlant ↔ green_percentage ps ≤ 15 := by
  by_cases h : is_plant_image (.rgb ps) = true
  · have h15 : (15 : Rat) < green_percentage ps := by
      have h2 := h
      simp only [is_plant_image, decide_eq_true_eq] at h2
      exact h2
    rw [predict_ok_of_gate _ h]
    simp [not_le.mpr h15]
  · have hb : is_plant_image (.rgb ps) = false := by
      cases hx : is_plant_image (.rgb ps)
      · rfl
      · exact absurd hx h
    have h15 : ¬ (15 : Rat) < green_percentage ps := by
      have h2 := hb
      simp only [is_plant_image, decide_eq_false_iff_not] at h2
      exact h2
    rw [predict_err_of_gate _ hb]
    simp [le_of_not_lt h15]

/-- Rounding half to even sits at or above any integer lower bound of
the argument. -/
theorem roundHalfEven_ge {q : Rat} {a : Int} (ha : (a : Rat) ≤ q) :
    a ≤ roundHalfEven q := by
  have h1 : a ≤ ⌊q⌋ := Int.le_floor.mpr ha
  unfold roundHalfEven
  split
  · exact h1
  · split
    · omega
    · split
      · exact h1
      · omega

/-- Rounding half to even sits at or below any integer upper bound of
the argument. -/
theorem roundHalfEven_le {q : Rat} {b : Int} (hb : q ≤ (b : Rat)) :
    roundHalfEven q ≤ b := by
  have hfb : ⌊q⌋ ≤ b := by
    have h1 : (⌊q⌋ : Rat) ≤ (b : Rat) := le_trans (Int.floor_le q) hb
    exact_mod_cast h1
  unfold roundHalfEven
  split
  · exact hfb
  · next h1 =>
    have h2 : (1 : Rat)/2 ≤ q - (⌊q⌋ : Rat) := not_lt.mp h1
    have h3 : (⌊q⌋ : Rat) < (b : Rat) := by linarith
    have h4 : ⌊q⌋ < b := by exact_mod_cast h3
    split
    · omega
    · split
      · exact hfb
      · omega

/-- Rounding half to even fixes integers. -/
theorem roundHalfEven_intCast (z : Int) : roundHalfEven ((z : Int) : Rat) = z := by
  unfold roundHalfEven
  rw [Int.floor_intCast]
  norm_num

/-- Python round of 0.75 to two decimals is 0.75. -/
theorem pyRound2_75 : pyRound2 (3/4) = 3/4 := by
  have h : (3/4 : Rat) * 100 = ((75 : Int) : Rat) := by norm_num
  rw [pyRound2, h, roundHalfEven_intCast]
  norm_num

/-- A uniform draw in the interval from 0.75 to 0.98 stays in that
interval after rounding to two decimals. -/
theorem pyRound2_bounds {u : Rat} (h1 : 3/4 ≤ u) (h2 : u ≤ 49/50) :
    3/4 ≤ pyRound2 u ∧ pyRound2 u ≤ 49/50 := by
  have hl : (75 : Int) ≤ roundHalfEven (u * 100) := by
    apply roundHalfEven_ge
    push_cast
    linarith
  have hu : roundHalfEven (u * 100) ≤ (98 : Int) := by
    apply roundHalfEven_le
    push_cast
    linarith
  have hl2 : (75 : Rat) ≤ ((roundHalfEven (u * 100) : Int) : Rat) := by exact_mod_cast hl
  have hu2 : ((roundHalfEven (u * 100) : Int) : Rat) ≤ 98 := by exact_mod_cast hu
  unfold pyRound2
  constructor
  · linarith
  · linarith

/-- The spec green fraction of the 18-percent buffer is 0.18. -/
theorem sgf_buf18 : specGreenFrac buf18 = 9/50 := by
  have hc : buf18.countP (specPredicate .green) = 18 := rfl
  have hl : buf18.length = 100 := rfl
  simp only [specGreenFrac, specFrac, hc, hl]
  norm_num

/-- The spec green fraction of the 16-percent buffer is 0.16. -/
theorem sgf_buf16 : specGreenFrac buf16 = 4/25 := by
  have hc : buf16.countP (specPredicate .green) = 16 := rfl
  have hl : buf16.length = 100 := rfl
  simp only [specGreenFrac, specFrac, hc, hl]
  norm_num

/-- The spec green fraction of the all-green buffer is 1. -/
theorem sf_green_allGreen : specFrac .green allGreenBuf = 1 := by
  have hc : allGreenBuf.countP (specPredicate .green) = 100 := rfl
  have hl : allGreenBuf.length = 100 := rfl
  simp only [specFrac, hc, hl]
  norm_num

/-- The spec white_dust fraction of the all-green buffer is 0. -/
theorem sf_wd_allGreen : specFrac .white_dust allGreenBuf = 0 := by
  have hc : allGreenBuf.countP (specPredicate .white_dust) = 0 := rfl
  simp only [specFrac, hc]
  norm_num

/-- The spec green fraction of the scenario buffer is 0.40. -/
theorem sf_green_mixed : specFrac .green mixedBuf = 2/5 := by
  have hc : mixedBuf.countP (specPredicate .green) = 40 := rfl
  have hl : mixedBuf.length = 100 := rfl
  simp only [specFrac, hc, hl]
  norm_num

/-- The spec white_dust fraction of the scenario buffer is 0.25. -/
theorem sf_wd_mixed : specFrac .white_dust mixedBuf = 1/4 := by
  have hc : mixedBuf.countP (specPredicate .white_dust) = 25 := rfl
  have hl : mixedBuf.length = 100 := rfl
  simp only [specFrac, hc, hl]
  norm_num

/-- On the all-green buffer the spec matcher picks Healthy: error 0.1
against Healthy versus 1.2 against Powdery Mildew. -/
theorem specMatch_allGreen :
    specMatch specLibrary (fun s => specFrac s allGreenBuf) = some "Healthy" := by
  have e1 : profileError (fun s => specFrac s allGreenBuf)
      [(Symptom.green, 9/10)] = 1/10 := by
    simp only [profileError, List.map_cons, List.map_nil, List.sum_cons, List.sum_nil,
      sf_green_allGreen]
    rw [abs_of_nonneg (by norm_num : (0:Rat) ≤ 1 - 9/10)]
    norm_num
  have e2 : profileError (fun s => specFrac s allGreenBuf)
      [(Symptom.white_dust, 3/5), (Symptom.green, 2/5)] = 6/5 := by
    simp only [profileError, List.map_cons, List.map_nil, List.sum_cons, List.sum_nil,
      sf_green_allGreen, sf_wd_allGreen]
    rw [abs_of_nonpos (by norm_num : (0:Rat) - 3/5 ≤ 0),
      abs_of_nonneg (by norm_num : (0:Rat) ≤ 1 - 2/5)]
    norm_num
  simp only [specMatch, specLibrary, List.foldl_cons, List.foldl_nil, specStep, e1, e2]
  rw [if_neg (by norm_num)]
  rfl

/-- On the scenario buffer the spec matcher picks Powdery Mildew: error
0.35 against Powdery Mildew versus 0.5 against Healthy. -/
theorem specMatch_mixed :
    specMatch specLibrary (fun s => specFrac s mixedBuf) = some "Powdery Mildew" := by
  have e1 : profileError (fun s => specFrac s mixedBuf)
      [(Symptom.green, 9/10)] = 1/2 := by
    simp only [profileError, List.map_cons, List.map_nil, List.sum_cons, List.sum_nil,
      sf_green_mixed]
    rw [abs_of_nonpos (by norm_num : (2:Rat)/5 - 9/10 ≤ 0)]
    norm_num
  have e2 : profileError (fun s => specFrac s mixedBuf)
      [(Symptom.white_dust, 3/5), (Symptom.green, 2/5)] = 7/20 := by
    simp only [profileError, List.map_cons, List.map_nil, List.sum_cons, List.sum_nil,
      sf_green_mixed, sf_wd_mixed]
    rw [abs_of_nonpos (by norm_num : (1:Rat)/4 - 3/5 ≤ 0)]
    norm_num
  simp only [specMatch, specLibrary, List.foldl_cons, List.foldl_nil, specStep, e1, e2]
  rw [if_pos (by norm_num)]
  rfl

/-- Claim C1, counterexample: the claimed gate is false on the code. The
pixel with channels 100, 101, 100 is counted green by the code but not by
the claimed 10-percent-margin predicate, and the 18-percent-green buffer
has spec green_ratio 0.18 below 0.20 yet is not rejected, because the
code threshold is percentage strictly greater than 15 with plain strict
channel comparison. -/
theorem crop_c1_counterexample :
    greenCount [Pixel.mk 100 101 100] = 1 ∧
    specPredicate .green (Pixel.mk 100 101 100) = false ∧
    specGreenFrac buf18 < 1/5 ∧
    predict (.img (.rgb buf18)) 0 (3/4) ≠ .error .notPlant := by
  refine ⟨rfl, rfl, ?_, ?_⟩
  · rw [sgf_buf18]
    norm_num
  · rw [predict_ok_of_gate _ gate_buf18]
    simp

/-- Claim C1, amended: the leaf gate counts pixels whose green channel is
strictly greater than both red and blue with no 10-percent margin, and on
a decoded buffer the pipeline rejects with the plant-image error exactly
when that green percentage is at most 15; otherwise it proceeds to the
mock prediction. -/
theorem crop_c1_amended (ps : List Pixel) (r : Fin 5) (u : Rat) :
    predict (.img (.rgb ps)) r u = .error .notPlant ↔ green_percentage ps ≤ 15 :=
  predict_notPlant_iff ps r u

/-- Claim C1, witness: the amended equivalence at the all-red buffer. -/
theorem crop_c1_witness :
    predict (.img (.rgb allRedBuf)) 0 (3/4) = .error .notPlant ↔
      green_percentage allRedBuf ≤ 15 :=
  crop_c1_amended allRedBuf 0 (3/4)

/-- Claim C2, counterexample: the claim is false on the code. On the
all-green buffer the spec matcher over the spec library selects Healthy,
but the code returns Early Blight when the random draw picks index 1: no
error minimisation governs the selection. -/
theorem crop_c2_counterexample :
    specMatch specLibrary (fun s => specFrac s allGreenBuf) = some "Healthy" ∧
    resultName (predict (.img (.rgb allGreenBuf)) 1 (3/4)) = some "Early Blight" ∧
    "Early Blight" ≠ "Healthy" := by
  refine ⟨specMatch_allGreen, ?_, by decide⟩
  rw [predict_ok_of_gate _ gate_allGreen]
  rfl

/-- Claim C2, amended: the code computes no per-profile error at all; on
every gate-passing buffer the returned disease is the entry of the fixed
five-element prediction list selected by the uniform random draw,
independent of any symptom values. -/
theorem crop_c2_amended (ps : List Pixel) (r : Fin 5) (u : Rat)
    (h : is_plant_image (.rgb ps) = true) :
    predict (.img (.rgb ps)) r u =
      .ok ⟨(randomChoice r).name, pyRound2 u, (randomChoice r).treatment⟩ :=
  predict_ok_of_gate _ h r u

/-- Claim C2, witness: the amended statement at the all-green buffer with
draw index 3. -/
theorem crop_c2_witness :
    is_plant_image (.rgb allGreenBuf) = true ∧
    predict (.img (.rgb allGreenBuf)) 3 (3/4) =
      .ok ⟨(randomChoice 3).name, pyRound2 (3/4), (randomChoice 3).treatment⟩ :=
  ⟨gate_allGreen, crop_c2_amended allGreenBuf 3 (3/4) gate_allGreen⟩

/-- Claim C3, counterexample: the claim is false on the code. With the
uniform draw 0.75 the returned confidence is 0.75, which is far below the
claimed after-jitter floor of 73: the code confidence lives on a 0-to-1
scale and involves no error term. -/
theorem crop_c3_counterexample :
    resultConf (predict (.img (.rgb allGreenBuf)) 0 (3/4)) = some (3/4) ∧
    (3/4 : Rat) < 73 := by
  constructor
  · rw [predict_ok_of_gate _ gate_allGreen]
    show some (pyRound2 (3/4)) = some (3/4)
    rw [pyRound2_75]
  · norm_num

/-- Claim C3, amended: the confidence is an independent uniform draw from
the interval 0.75 to 0.98 rounded to two decimals, unrelated to any error
term; for every draw in that interval the returned confidence also lies
in that interval. -/
theorem crop_c3_amended (i : PILImage) (r : Fin 5) (u : Rat)
    (h1 : 3/4 ≤ u) (h2 : u ≤ 49/50) (hg : is_plant_image i = true) :
    ∃ res, predict (.img i) r u = .ok res ∧ res.confidence = pyRound2 u ∧
      3/4 ≤ res.confidence ∧ res.confidence ≤ 49/50 := by
  refine ⟨_, predict_ok_of_gate i hg r u, rfl, ?_, ?_⟩
  · exact (pyRound2_bounds h1 h2).1
  · exact (pyRound2_bounds h1 h2).2

/-- Claim C3, witness: the amended statement at the all-green buffer with
uniform draw 0.8. -/
theorem crop_c3_witness :
    (3/4 : Rat) ≤ 4/5 ∧ (4/5 : Rat) ≤ 49/50 ∧
    is_plant_image (.rgb allGreenBuf) = true ∧
    ∃ res, predict (.img (.rgb allGreenBuf)) 0 (4/5) = .ok res ∧
      res.confidence = pyRound2 (4/5) ∧
      3/4 ≤ res.confidence ∧ res.confidence ≤ 49/50 :=
  ⟨by norm_num, by norm_num, gate_allGreen,
    crop_c3_amended _ 0 (4/5) (by norm_num) (by norm_num) gate_allGreen⟩

/-- Claim C4, counterexample: the claim is false on the code. Two calls
on the identical all-green buffer return different disease names and
different treatment texts when the random draws differ, so the result is
not deterministic apart from the confidence jitter. -/
theorem crop_c4_counterexample :
    resultName (predict (.img (.rgb allGreenBuf)) 0 (3/4)) = some "Healthy" ∧
    resultName (predict (.img (.rgb allGreenBuf)) 1 (3/4)) = some "Early Blight" ∧
    resultTreat (predict (.img (.rgb allGreenBuf)) 0 (3/4)) ≠
      resultTreat (predict (.img (.rgb allGreenBuf)) 1 (3/4)) := by
  rw [predict_ok_of_gate _ gate_allGreen, predict_ok_of_gate _ gate_allGreen]
  refine ⟨rfl, rfl, ?_⟩
  decide

/-- Claim C4, amended: for fixed values of the two random draws the
response is a function of the gate outcome alone; in particular two calls
with the same buffer and the same draws return identical name, treatment
and confidence, while different draws may change all three. -/
theorem crop_c4_amended (i₁ i₂ : PILImage) (r : Fin 5) (u : Rat)
    (h : is_plant_image i₁ = is_plant_image i₂) :
    predict (.img i₁) r u = predict (.img i₂) r u := by
  simp only [predict, h]

/-- Claim C4, witness: the amended statement relating the all-green and
scenario buffers, which agree on the gate. -/
theorem crop_c4_witness :
    is_plant_image (.rgb allGreenBuf) = is_plant_image (.rgb mixedBuf) ∧
    predict (.img (.rgb allGreenBuf)) 0 (3/4) = predict (.img (.rgb mixedBuf)) 0 (3/4) :=
  ⟨by rw [gate_allGreen, gate_mixed],
    crop_c4_amended _ _ 0 (3/4) (by rw [gate_allGreen, gate_mixed])⟩

/-- Claim C5, counterexample: the claim is false on the code. The
16-percent-green buffer has spec green_ratio 0.16 below 0.20, yet the
code gate passes since 16 is greater than 15 and a classification is
produced. -/
theorem crop_c5_counterexample :
    specGreenFrac buf16 < 1/5 ∧
    resultName (predict (.img (.rgb buf16)) 0 (3/4)) = some "Healthy" := by
  constructor
  · rw [sgf_buf16]
    norm_num
  · rw [predict_ok_of_gate _ gate_buf16]
    rfl

/-- Claim C5, amended: on every decoded buffer whose green percentage in
the code sense is at most 15, predict returns the plant-image rejection
and the mock prediction stage is never reached. -/
theorem crop_c5_amended (ps : List Pixel) (r : Fin 5) (u : Rat)
    (h : green_percentage ps ≤ 15) :
    predict (.img (.rgb ps)) r u = .error .notPlant :=
  (predict_notPlant_iff ps r u).mpr h

/-- Claim C5, witness: the amended statement at the all-red buffer. -/
theorem crop_c5_witness :
    green_percentage allRedBuf ≤ 15 ∧
    predict (.img (.rgb allRedBuf)) 0 (3/4) = .error .notPlant :=
  ⟨by rw [gp_allRed]; norm_num,
    crop_c5_amended allRedBuf 0 (3/4) (by rw [gp_allRed]; norm_num)⟩

/-- Claim C6, counterexample: the claim is false on the code. The
all-green buffer and the scenario buffer differ in their white_dust
fraction, 0 against 0.25, both pass the gate, and yet predict returns the
identical response for the same draws: no symptom ratios are computed or
carried in any result. -/
theorem crop_c6_counterexample :
    specFrac .white_dust allGreenBuf = 0 ∧
    specFrac .white_dust mixedBuf = 1/4 ∧
    is_plant_image (.rgb allGreenBuf) = true ∧
    is_plant_image (.rgb mixedBuf) = true ∧
    predict (.img (.rgb allGreenBuf)) 0 (3/4) = predict (.img (.rgb mixedBuf)) 0 (3/4) := by
  refine ⟨sf_wd_allGreen, sf_wd_mixed, gate_allGreen, gate_mixed, ?_⟩
  rw [predict_ok_of_gate _ gate_allGreen, predict_ok_of_gate _ gate_mixed]

/-- Claim C6, amended: the code computes no symptom ratios after the gate
and its response carries none; the five spec-defined symptom fractions,
each the count of matching pixels over the total pixel count, always lie
between 0 and 1. -/
theorem crop_c6_amended (ps : List Pixel) (s : Symptom) :
    0 ≤ specFrac s ps ∧ specFrac s ps ≤ 1 := by
  constructor
  · unfold specFrac
    positivity
  · rcases Nat.eq_zero_or_pos ps.length with h0 | hpos
    · unfold specFrac
      rw [h0]
      norm_num
    · unfold specFrac
      have hq : (0 : Rat) < (ps.length : Rat) := by exact_mod_cast hpos
      rw [div_le_one hq]
      exact_mod_cast List.countP_le_length _

/-- Claim C7, counterexample: the claim is false on the code. A buffer
whose pixel data fails to decode inside the plant check, and the
zero-size buffer, are both answered with the plant-image rejection rather
than a processing error, because the except block in is_plant_image turns
every internal failure into False. -/
theorem crop_c7_counterexample :
    predict (.img .loadFail) 0 (3/4) = .error .notPlant ∧
    predict (.img (.rgb [])) 0 (3/4) = .error .notPlant :=
  ⟨rfl, predict_err_of_gate _ gate_nil 0 (3/4)⟩

/-- Claim C7, amended: a failure of the initial image open surfaces as
the processing error, but a decode failure inside the plant check and the
zero-size buffer are converted to the plant-image rejection instead. -/
theorem crop_c7_amended :
    (∀ (r : Fin 5) (u : Rat) (msg : String),
      predict (.openFail msg) r u = .error (.processing msg)) ∧
    (∀ (r : Fin 5) (u : Rat), predict (.img .loadFail) r u = .error .notPlant) ∧
    (∀ (r : Fin 5) (u : Rat), predict (.img (.rgb [])) r u = .error .notPlant) :=
  ⟨fun _ _ _ => rfl, fun _ _ => rfl, fun r u => predict_err_of_gate _ gate_nil r u⟩

/-- Claim C8, counterexample: the claim is false on the code. On the
scenario buffer, 25 percent white_dust and 40 percent green, the spec
matcher would select Powdery Mildew, but the code returns Healthy when
the random draw picks index 0. -/
theorem crop_c8_counterexample :
    specFrac .white_dust mixedBuf = 1/4 ∧
    specFrac .green mixedBuf = 2/5 ∧
    specMatch specLibrary (fun s => specFrac s mixedBuf) = some "Powdery Mildew" ∧
    resultName (predict (.img (.rgb mixedBuf)) 0 (3/4)) = some "Healthy" ∧
    "Healthy" ≠ "Powdery Mildew" := by
  refine ⟨sf_wd_mixed, sf_green_mixed, specMatch_mixed, ?_, by decide⟩
  rw [predict_ok_of_gate _ gate_mixed]
  rfl

/-- Claim C8, amended: on the scenario buffer the code returns the
prediction-list entry selected by the random draw, and Powdery Mildew is
returned exactly when the draw picks index 3, not through any error
comparison. -/
theorem crop_c8_amended (r : Fin 5) (u : Rat) :
    resultName (predict (.img (.rgb mixedBuf)) r u) = some (randomChoice r).name ∧
    ((randomChoice r).name = "Powdery Mildew" ↔ r = 3) := by
  constructor
  · rw [predict_ok_of_gate _ gate_mixed]
    rfl
  · fin_cases r <;> decide

/-- Claim C9: every successful classification result carries a disease
name that is the name of an entry of the fixed prediction list and a
treatment text equal, character for character, to the treatment of the
selected entry. -/
theorem crop_c9_library (o : OpenResult) (r : Fin 5) (u : Rat) (res : Result)
    (h : predict o r u = .ok res) :
    res.prediction = (randomChoice r).name ∧
    res.treatment = (randomChoice r).treatment ∧
    ∃ p ∈ prediction_types, res.prediction = p.name ∧ res.treatment = p.treatment := by
  cases o with
  | openFail msg => simp [predict] at h
  | img i =>
    by_cases hg : is_plant_image i = true
    · rw [predict_ok_of_gate i hg] at h
      injection h with h2
      subst h2
      refine ⟨rfl, rfl, randomChoice r, ?_, rfl, rfl⟩
      fin_cases r <;> decide
    · have hb : is_plant_image i = false := by
        cases hx : is_plant_image i
        · rfl
        · exact absurd hx hg
      rw [predict_err_of_gate i hb] at h
      exact absurd h (by simp)

/-- Claim C9, witness: the library property at the all-green buffer with
draw index 0. -/
theorem crop_c9_witness :
    (Result.mk "Healthy" (pyRound2 (3/4)) "Continue current care routine. Monitor for any changes. Apply fertilizer as scheduled. Maintain proper watering schedule.").prediction = (randomChoice 0).name ∧
    (Result.mk "Healthy" (pyRound2 (3/4)) "Continue current care routine. Monitor for any changes. Apply fertilizer as scheduled. Maintain proper watering schedule.").treatment = (randomChoice 0).treatment ∧
    ∃ p ∈ prediction_types,
      (Result.mk "Healthy" (pyRound2 (3/4)) "Continue current care routine. Monitor for any changes. Apply fertilizer as scheduled. Maintain proper watering schedule.").prediction = p.name ∧
      (Result.mk "Healthy" (pyRound2 (3/4)) "Continue current care routine. Monitor for any changes. Apply fertilizer as scheduled. Maintain proper watering schedule.").treatment = p.treatment :=
  crop_c9_library (.img (.rgb allGreenBuf)) 0 (3/4) _
    (predict_ok_of_gate _ gate_allGreen 0 (3/4))

/-- Claim C10: the database save cannot change the response. For any two
save behaviours, including any failing one, predict with persistence
returns the same value, and that value is exactly the pure prediction
response, already computed before the save. -/
theorem crop_c10_db_resilience (o : OpenResult) (r : Fin 5) (u : Rat)
    (f g : Result → Except String Unit) :
    predictWithDb o r u f = predictWithDb o r u g ∧
    predictWithDb o r u f = predict o r u := by
  unfold predictWithDb
  cases hp : predict o r u with
  | error e => simp
  | ok res =>
    cases hf : f res <;> cases hg : g res <;> simp [hf, hg]

end Crop
